import Mathlib

/-!
Verification of the weather-based outfit recommendation backend (`app.py`).

The Python source is shallowly embedded: the pure recommender
(`get_outfit_recommendation`, `generate_style_tips`) becomes a pure Lean
function; the two outbound HTTP adapters (`search_unsplash_image`,
`get_outfit_images`) are parameterised over the environment (API key) and
the upstream service behaviour, and additionally record which calls they
make so that invocation claims can be stated; the Flask request handler
(`outfit_recommendation`) is embedded as a function of the parsed request
body and the two adapters' environments.  Temperatures and other numeric
JSON payload values are modelled as rationals.
-/

namespace OutfitApp

/-- The outfit record built by `get_outfit_recommendation` in `app.py`
(fields `top`, `bottom`, `outerwear`, `footwear`, `accessories`). -/
structure Outfit where
  top : String
  bottom : String
  outerwear : String
  footwear : String
  accessories : List String
deriving Repr, DecidableEq

/-- The weather payload fields consumed by the backend:
`main.temp`, `weather[0].main`, `weather[0].description`,
`main.humidity`, `wind.speed`. -/
structure WeatherData where
  temp : ℚ
  condition : String
  description : String
  humidity : ℚ
  wind_speed : ℚ
deriving Repr, DecidableEq

/-- The preferences dictionary assembled by the request handler
(`mood`, `style_preference`, `color_preference`, all present with
defaults applied). -/
structure Preferences where
  mood : String
  style_preference : String
  color_preference : String
deriving Repr, DecidableEq

/-- The value returned by `get_outfit_recommendation`:
outfit, color palette and style tips. -/
structure Recommendation where
  outfit : Outfit
  color_palette : List String
  style_tips : String
deriving Repr, DecidableEq

/-- The five temperature tiers of the base-outfit table
(comments `Cold`/`Cool`/`Mild`/`Warm`/`Hot` in `app.py`). -/
inductive Tier
  | cold
  | cool
  | mild
  | warm
  | hot
deriving Repr, DecidableEq

/-- Which tier the temperature if-chain of `get_outfit_recommendation`
selects: `temp < 50` cold, `temp < 65` cool, `temp < 75` mild,
`temp < 85` warm, otherwise hot. -/
def tierOf (temp : ℚ) : Tier :=
  if temp < 50 then .cold
  else if temp < 65 then .cool
  else if temp < 75 then .mild
  else if temp < 85 then .warm
  else .hot

/-- The fixed outfit each tier assigns (the right-hand sides of the
five branches in `app.py` lines 46-75). -/
def tierOutfit : Tier → Outfit
  | .cold =>
    ⟨"Thermal long-sleeve shirt or sweater", "Jeans or warm pants",
     "Heavy coat or parka", "Boots", ["Scarf", "Gloves", "Beanie"]⟩
  | .cool =>
    ⟨"Long-sleeve shirt or light sweater", "Chinos or jeans",
     "Light jacket or cardigan", "Sneakers or loafers", ["Light scarf"]⟩
  | .mild =>
    ⟨"T-shirt or button-down shirt", "Chinos or casual pants",
     "Optional light jacket", "Sneakers or casual shoes", ["Sunglasses"]⟩
  | .warm =>
    ⟨"Breathable t-shirt or polo", "Shorts or light pants",
     "None needed", "Sandals or canvas shoes", ["Sunglasses", "Hat"]⟩
  | .hot =>
    ⟨"Light, breathable tank or t-shirt", "Shorts",
     "None", "Sandals", ["Sunglasses", "Sun hat", "Sunscreen"]⟩

/-- The temperature-based branch of `get_outfit_recommendation`
(`app.py` lines 46-75), as the source writes it: one if-chain on `temp`. -/
def baseOutfit (temp : ℚ) : Outfit :=
  if temp < 50 then
    ⟨"Thermal long-sleeve shirt or sweater", "Jeans or warm pants",
     "Heavy coat or parka", "Boots", ["Scarf", "Gloves", "Beanie"]⟩
  else if temp < 65 then
    ⟨"Long-sleeve shirt or light sweater", "Chinos or jeans",
     "Light jacket or cardigan", "Sneakers or loafers", ["Light scarf"]⟩
  else if temp < 75 then
    ⟨"T-shirt or button-down shirt", "Chinos or casual pants",
     "Optional light jacket", "Sneakers or casual shoes", ["Sunglasses"]⟩
  else if temp < 85 then
    ⟨"Breathable t-shirt or polo", "Shorts or light pants",
     "None needed", "Sandals or canvas shoes", ["Sunglasses", "Hat"]⟩
  else
    ⟨"Light, breathable tank or t-shirt", "Shorts",
     "None", "Sandals", ["Sunglasses", "Sun hat", "Sunscreen"]⟩

/-- The weather-condition adjustment block of `get_outfit_recommendation`
(`app.py` lines 77-85): rain-family conditions force waterproof
outerwear/footwear and append `Umbrella`; `Snow` forces the insulated
coat and winter boots and appends warm hat, gloves, scarf. -/
def conditionAdjust (condition : String) (o : Outfit) : Outfit :=
  if condition = "Rain" ∨ condition = "Drizzle" ∨ condition = "Thunderstorm" then
    { o with
        outerwear := "Waterproof jacket or raincoat"
        accessories := o.accessories ++ ["Umbrella"]
        footwear := "Waterproof boots or shoes" }
  else if condition = "Snow" then
    { o with
        outerwear := "Insulated winter coat"
        accessories := o.accessories ++ ["Warm hat", "Gloves", "Scarf"]
        footwear := "Winter boots" }
  else o

/-- The mood adjustment block of `get_outfit_recommendation`
(`app.py` lines 87-97). -/
def moodAdjust (mood : String) (o : Outfit) : Outfit :=
  if mood = "professional" then
    { o with
        top := (o.top.replace "t-shirt" "dress shirt").replace "T-shirt" "Button-down shirt"
        bottom := "Dress pants or skirt"
        footwear := "Dress shoes or heels" }
  else if mood = "adventurous" then
    { o with
        footwear := "Hiking boots or athletic shoes"
        accessories := o.accessories ++ ["Backpack"] }
  else if mood = "cozy" then
    { o with
        top := "Soft sweater or hoodie"
        accessories := o.accessories ++ ["Comfort scarf"] }
  else o

/-- The `color_palettes` dictionary lookup with fallback to `neutral`
(`app.py` lines 100-107). -/
def colorPalette (color_pref : String) : List String :=
  if color_pref = "neutral" then ["Navy", "Beige", "White", "Gray"]
  else if color_pref = "warm" then ["Burgundy", "Mustard", "Rust", "Cream"]
  else if color_pref = "cool" then ["Navy", "Teal", "Silver", "Ice Blue"]
  else if color_pref = "vibrant" then ["Red", "Emerald", "Royal Blue", "Yellow"]
  else ["Navy", "Beige", "White", "Gray"]

/-- `generate_style_tips` from `app.py` lines 119-135. -/
def generate_style_tips (temp : ℚ) (condition mood : String) : String :=
  let tips : List String :=
    (if temp < 65 then ["Layer your clothing for temperature flexibility"] else []) ++
    (if condition = "Rain" ∨ condition = "Drizzle"
      then ["Choose water-resistant fabrics"] else []) ++
    (if temp > 75 then ["Opt for breathable, moisture-wicking materials"] else []) ++
    (if mood = "professional" then ["Keep accessories minimal and polished"] else [])
  if tips.isEmpty then "Dress comfortably and confidently!"
  else String.intercalate " | " tips

/-- `get_outfit_recommendation` from `app.py` lines 26-116:
base outfit from the temperature tier, then the condition adjustment,
then the mood adjustment, plus palette and tips. -/
def get_outfit_recommendation (weather : WeatherData) (prefs : Preferences) :
    Recommendation :=
  let temp := weather.temp
  let condition := weather.condition
  let mood := prefs.mood
  { outfit := moodAdjust mood (conditionAdjust condition (baseOutfit temp))
    color_palette := colorPalette prefs.color_preference
    style_tips := generate_style_tips temp condition mood }

/-- The image record `search_unsplash_image` builds from a successful
photo-search response (`url`, `thumb`, `photographer`, `photographer_url`). -/
structure ImageResult where
  url : String
  thumb : String
  photographer : String
  photographer_url : String
deriving Repr, DecidableEq

/-- Possible outcomes of one outbound photo-search HTTP call:
a 200 response with a (possibly empty) result list, a non-200 status,
or an exception raised during the call. -/
inductive UpstreamImageOutcome
  | ok (results : List ImageResult)
  | httpStatus (status : Nat)
  | exception
deriving Repr, DecidableEq

/-- `search_unsplash_image` from `app.py` lines 138-171, parameterised by
the configured access key and by the upstream service behaviour (a map
from query to outcome).  First component: the value the Python function
returns (`None` becomes `none`).  Second component: the list of queries
for which an outbound HTTP call is actually made (empty when the key is
unset, since the function returns before calling `requests.get`). -/
def search_unsplash_image (accessKey : Option String)
    (service : String → UpstreamImageOutcome) (query : String) :
    Option ImageResult × List String :=
  match accessKey with
  | none => (none, [])
  | some _ =>
    match service query with
    | .ok (first :: _) => (some first, [query])
    | .ok [] => (none, [query])
    | .httpStatus _ => (none, [query])
    | .exception => (none, [query])

/-- The `search_queries` dictionary of `get_outfit_images`
(`app.py` lines 181-187), in insertion order.  The outerwear entry is
`None` exactly when the outerwear string is falsy (empty) or equals
`"None needed"`. -/
def search_queries (outfit : Outfit) : List (String × Option String) :=
  [("top", some (outfit.top ++ " fashion flatlay")),
   ("bottom", some (outfit.bottom ++ " fashion flatlay")),
   ("outerwear",
     if outfit.outerwear ≠ "" ∧ outfit.outerwear ≠ "None needed"
     then some (outfit.outerwear ++ " fashion flatlay") else none),
   ("footwear", some (outfit.footwear ++ " fashion flatlay")),
   ("outfit_complete", some "complete outfit flatlay fashion minimal aesthetic")]

/-- Result of the image-fetch loop: the `images` dictionary (as an
association list in insertion order), the slots for which
`search_unsplash_image` was invoked, and the queries for which an
outbound HTTP call was made. -/
structure ImagesResult where
  images : List (String × ImageResult)
  adapterCalls : List String
  serviceCalls : List String
deriving Repr, DecidableEq

/-- The `for key, query in search_queries.items()` loop of
`get_outfit_images` (`app.py` lines 189-193): entries with a `None`
query are skipped; otherwise the adapter is invoked and the image is
stored only when a result came back. -/
def processQueries (accessKey : Option String)
    (service : String → UpstreamImageOutcome) :
    List (String × Option String) → ImagesResult
  | [] => ⟨[], [], []⟩
  | (_, none) :: rest => processQueries accessKey service rest
  | (key, some q) :: rest =>
    let r := search_unsplash_image accessKey service q
    let tail := processQueries accessKey service rest
    ⟨(match r.1 with
      | some img => [(key, img)]
      | none => []) ++ tail.images,
     key :: tail.adapterCalls,
     r.2 ++ tail.serviceCalls⟩

/-- `get_outfit_images` from `app.py` lines 174-195. -/
def get_outfit_images (accessKey : Option String)
    (service : String → UpstreamImageOutcome) (outfit : Outfit) : ImagesResult :=
  processQueries accessKey service (search_queries outfit)

/-- Python `round` (round half to even), used by the request handler on
the displayed temperature and wind speed. -/
def pythonRound (q : ℚ) : ℤ :=
  let f := ⌊q⌋
  let r := q - f
  if r < 1/2 then f
  else if 1/2 < r then f + 1
  else if f % 2 = 0 then f else f + 1

/-- The parsed JSON body of a POST to `/api/outfit-recommendation`;
each field is `none` when the key is absent from the body. -/
structure RequestBody where
  location : Option String
  mood : Option String
  style_preference : Option String
  color_preference : Option String
deriving Repr, DecidableEq

/-- Outcome of the outbound weather HTTP call: a response with some
status and (for status 200) a parsed weather payload, or a
network-level failure (`requests.RequestException`). -/
inductive WeatherFetchOutcome
  | response (status : Nat) (data : WeatherData)
  | networkFailure
deriving Repr, DecidableEq

/-- The `weather` summary the handler places in the response
(`app.py` lines 247-253): temperature and wind speed rounded. -/
structure WeatherInfo where
  temperature : ℤ
  condition : String
  description : String
  humidity : ℚ
  wind_speed : ℤ
deriving Repr, DecidableEq

/-- The JSON body of the handler's response: either an error object
`{"error": msg}` or the combined success payload. -/
inductive ResponseBody
  | error (msg : String)
  | success (location : String) (weather : WeatherInfo) (outfit : Outfit)
      (outfit_images : List (String × ImageResult))
      (color_palette : List String) (style_tips : String)
deriving Repr, DecidableEq

/-- What one run of the request handler produced: HTTP status, body,
how many weather calls and recommender calls were made, and the image
adapter / image service call lists from the image phase. -/
structure HandlerResult where
  status : Nat
  body : ResponseBody
  weatherCalls : Nat
  recommenderCalls : Nat
  imageAdapterCalls : List String
  imageServiceCalls : List String
deriving Repr, DecidableEq

/-- The `/api/outfit-recommendation` handler from `app.py` lines
207-280, parameterised by the parsed request body (`none` when
`request.get_json()` yields no object) and by the behaviour of the two
upstream services.  Missing body or missing `location` key returns 400
before any outbound call; a non-200 weather response returns 400; a
network failure reaching the weather service returns 503; otherwise the
recommender and the image phase run and the combined payload is
returned with 200. -/
def outfit_recommendation (data : Option RequestBody)
    (weatherService : String → WeatherFetchOutcome)
    (unsplashKey : Option String)
    (imageService : String → UpstreamImageOutcome) : HandlerResult :=
  match data with
  | none => ⟨400, .error "Location is required", 0, 0, [], []⟩
  | some d =>
    match d.location with
    | none => ⟨400, .error "Location is required", 0, 0, [], []⟩
    | some location =>
      let preferences : Preferences :=
        ⟨d.mood.getD "casual", d.style_preference.getD "casual",
         d.color_preference.getD "neutral"⟩
      match weatherService location with
      | .networkFailure =>
        ⟨503, .error "Failed to connect to weather service", 1, 0, [], []⟩
      | .response status wd =>
        if status ≠ 200 then
          ⟨400, .error "Unable to fetch weather data. Please check the location.",
           1, 0, [], []⟩
        else
          let weather_info : WeatherInfo :=
            ⟨pythonRound wd.temp, wd.condition, wd.description, wd.humidity,
             pythonRound wd.wind_speed⟩
          let recommendation := get_outfit_recommendation wd preferences
          let imgs := get_outfit_images unsplashKey imageService recommendation.outfit
          ⟨200,
           .success location weather_info recommendation.outfit imgs.images
             recommendation.color_palette recommendation.style_tips,
           1, 1, imgs.adapterCalls, imgs.serviceCalls⟩

/-! ## Theorems -/

/-- C2: for every temperature `t`, exactly one of the five base-outfit
tiers is selected (the tier map is a total function into the five-element
`Tier` type, and the five membership conditions below are mutually
exclusive and exhaustive), the tier boundaries are exactly at 50, 65, 75
and 85 degrees, and a boundary value belongs to the higher tier: in
particular `t = 50` selects the cool tier, not the cold one.  The base
outfit the recommender builds is exactly the selected tier's fixed
outfit. -/
theorem tier_boundaries (t : ℚ) :
    baseOutfit t = tierOutfit (tierOf t) ∧
    (tierOf t = .cold ↔ t < 50) ∧
    (tierOf t = .cool ↔ 50 ≤ t ∧ t < 65) ∧
    (tierOf t = .mild ↔ 65 ≤ t ∧ t < 75) ∧
    (tierOf t = .warm ↔ 75 ≤ t ∧ t < 85) ∧
    (tierOf t = .hot ↔ 85 ≤ t) ∧
    tierOf (50 : ℚ) = .cool := by
  have h50 : tierOf (50 : ℚ) = .cool := by norm_num [tierOf]
  refine ⟨?_, ?_, ?_, ?_, ?_, ?_, h50⟩ <;>
    simp only [baseOutfit, tierOf] <;>
    split_ifs with h1 h2 h3 h4 <;>
    (try simp_all [tierOutfit]) <;> (try intro h5) <;> linarith

/-- C5: for temperature 30, condition `Snow` and mood `casual`, the
recommender returns the insulated winter coat as outerwear, winter boots
as footwear, and the accessories list is exactly the cold-tier
accessories (`Scarf`, `Gloves`, `Beanie`, in tier order) followed by the
appended snow accessories `Warm hat`, `Gloves`, `Scarf`, in that order. -/
theorem snow_scenario :
    (get_outfit_recommendation ⟨30, "Snow", "light snow", 80, 10⟩
        ⟨"casual", "casual", "neutral"⟩).outfit.outerwear
      = "Insulated winter coat" ∧
    (get_outfit_recommendation ⟨30, "Snow", "light snow", 80, 10⟩
        ⟨"casual", "casual", "neutral"⟩).outfit.footwear
      = "Winter boots" ∧
    (get_outfit_recommendation ⟨30, "Snow", "light snow", 80, 10⟩
        ⟨"casual", "casual", "neutral"⟩).outfit.accessories
      = ["Scarf", "Gloves", "Beanie"] ++ ["Warm hat", "Gloves", "Scarf"] := by
  decide

/-- C3: when the mood does not override the affected slots (mood is
neither `professional` nor `adventurous`), a rain-family condition
(`Rain`, `Drizzle`, `Thunderstorm`) forces the waterproof outerwear and
waterproof footwear with `Umbrella` appended to the accessories, and
`Snow` forces the insulated winter coat and winter boots — replacing
whatever the temperature tier chose, for every temperature. -/
theorem condition_override_wins (weather : WeatherData) (prefs : Preferences)
    (hm1 : prefs.mood ≠ "professional") (hm2 : prefs.mood ≠ "adventurous") :
    (weather.condition = "Rain" ∨ weather.condition = "Drizzle" ∨
        weather.condition = "Thunderstorm" →
      (get_outfit_recommendation weather prefs).outfit.outerwear
          = "Waterproof jacket or raincoat" ∧
      (get_outfit_recommendation weather prefs).outfit.footwear
          = "Waterproof boots or shoes" ∧
      "Umbrella" ∈ (get_outfit_recommendation weather prefs).outfit.accessories) ∧
    (weather.condition = "Snow" →
      (get_outfit_recommendation weather prefs).outfit.outerwear
          = "Insulated winter coat" ∧
      (get_outfit_recommendation weather prefs).outfit.footwear
          = "Winter boots") := by
  constructor
  · rintro (hc | hc | hc) <;>
      simp only [get_outfit_recommendation, moodAdjust, conditionAdjust, hc] <;>
      split_ifs <;> simp_all
  · intro hc
    simp only [get_outfit_recommendation, moodAdjust, conditionAdjust, hc]
    split_ifs <;> simp_all

/-- Witness for `condition_override_wins` at temperature 40, condition
`Rain`, mood `casual`. -/
theorem condition_override_wins_witness :
    ((Preferences.mk "casual" "casual" "neutral").mood ≠ "professional") ∧
    ((Preferences.mk "casual" "casual" "neutral").mood ≠ "adventurous") ∧
    (((WeatherData.mk 40 "Rain" "light rain" 80 5).condition = "Rain" ∨
        (WeatherData.mk 40 "Rain" "light rain" 80 5).condition = "Drizzle" ∨
        (WeatherData.mk 40 "Rain" "light rain" 80 5).condition = "Thunderstorm" →
      (get_outfit_recommendation (WeatherData.mk 40 "Rain" "light rain" 80 5)
          (Preferences.mk "casual" "casual" "neutral")).outfit.outerwear
          = "Waterproof jacket or raincoat" ∧
      (get_outfit_recommendation (WeatherData.mk 40 "Rain" "light rain" 80 5)
          (Preferences.mk "casual" "casual" "neutral")).outfit.footwear
          = "Waterproof boots or shoes" ∧
      "Umbrella" ∈ (get_outfit_recommendation (WeatherData.mk 40 "Rain" "light rain" 80 5)
          (Preferences.mk "casual" "casual" "neutral")).outfit.accessories) ∧
    ((WeatherData.mk 40 "Rain" "light rain" 80 5).condition = "Snow" →
      (get_outfit_recommendation (WeatherData.mk 40 "Rain" "light rain" 80 5)
          (Preferences.mk "casual" "casual" "neutral")).outfit.outerwear
          = "Insulated winter coat" ∧
      (get_outfit_recommendation (WeatherData.mk 40 "Rain" "light rain" 80 5)
          (Preferences.mk "casual" "casual" "neutral")).outfit.footwear
          = "Winter boots")) :=
  ⟨by decide, by decide,
   condition_override_wins (WeatherData.mk 40 "Rain" "light rain" 80 5)
     (Preferences.mk "casual" "casual" "neutral") (by decide) (by decide)⟩

/-- C4: for every temperature and every weather condition, mood
`professional` makes the final footwear `Dress shoes or heels` and mood
`adventurous` makes it `Hiking boots or athletic shoes`: the mood
override is applied after the condition override and determines the
footwear regardless of tier or condition. -/
theorem mood_override_footwear (weather : WeatherData)
    (stylePref colorPref : String) :
    (get_outfit_recommendation weather
        ⟨"professional", stylePref, colorPref⟩).outfit.footwear
      = "Dress shoes or heels" ∧
    (get_outfit_recommendation weather
        ⟨"adventurous", stylePref, colorPref⟩).outfit.footwear
      = "Hiking boots or athletic shoes" := by
  simp only [get_outfit_recommendation, moodAdjust, conditionAdjust]
  split_ifs <;> simp_all

/-- C6: an unrecognised `color_preference` yields exactly the neutral
palette, and every palette the recommender returns has exactly 4
colors. -/
theorem palette_fallback (weather : WeatherData) (prefs : Preferences)
    (h : prefs.color_preference ∉
      (["neutral", "warm", "cool", "vibrant"] : List String)) :
    (get_outfit_recommendation weather prefs).color_palette
        = colorPalette "neutral" ∧
    ∀ (w : WeatherData) (p : Preferences),
      ((get_outfit_recommendation w p).color_palette).length = 4 := by
  constructor
  · simp only [List.mem_cons, not_or] at h
    obtain ⟨h1, h2, h3, h4, h5⟩ := h
    simp only [get_outfit_recommendation, colorPalette,
      if_neg h1, if_neg h2, if_neg h3, if_neg h4]
    rfl
  · intro w p
    simp only [get_outfit_recommendation, colorPalette]
    split_ifs <;> rfl

/-- Witness for `palette_fallback` at `color_preference = "magenta"`. -/
theorem palette_fallback_witness :
    ((Preferences.mk "casual" "casual" "magenta").color_preference ∉
      (["neutral", "warm", "cool", "vibrant"] : List String)) ∧
    ((get_outfit_recommendation (WeatherData.mk 70 "Clear" "clear sky" 50 5)
        (Preferences.mk "casual" "casual" "magenta")).color_palette
        = colorPalette "neutral" ∧
    ∀ (w : WeatherData) (p : Preferences),
      ((get_outfit_recommendation w p).color_palette).length = 4) :=
  ⟨by decide,
   palette_fallback (WeatherData.mk 70 "Clear" "clear sky" 50 5)
     (Preferences.mk "casual" "casual" "magenta") (by decide)⟩

/-- C9: two preference records that agree on mood and color preference
but differ arbitrarily in `style_preference` produce identical
recommendations (same outfit, same palette, same style tips):
`style_preference` is accepted but inert. -/
theorem style_preference_inert (weather : WeatherData) (p1 p2 : Preferences)
    (hm : p1.mood = p2.mood) (hc : p1.color_preference = p2.color_preference) :
    get_outfit_recommendation weather p1 = get_outfit_recommendation weather p2 := by
  simp only [get_outfit_recommendation, hm, hc]

/-- Witness for `style_preference_inert`: same mood and color
preference, `style_preference` `"sporty"` versus `"elegant"`. -/
theorem style_preference_inert_witness :
    (Preferences.mk "casual" "sporty" "neutral").mood
        = (Preferences.mk "casual" "elegant" "neutral").mood ∧
    (Preferences.mk "casual" "sporty" "neutral").color_preference
        = (Preferences.mk "casual" "elegant" "neutral").color_preference ∧
    get_outfit_recommendation (WeatherData.mk 70 "Clear" "clear sky" 50 5)
        (Preferences.mk "casual" "sporty" "neutral")
      = get_outfit_recommendation (WeatherData.mk 70 "Clear" "clear sky" 50 5)
        (Preferences.mk "casual" "elegant" "neutral") :=
  ⟨rfl, rfl,
   style_preference_inert (WeatherData.mk 70 "Clear" "clear sky" 50 5)
     (Preferences.mk "casual" "sporty" "neutral")
     (Preferences.mk "casual" "elegant" "neutral") rfl rfl⟩

/-- C1 (counterexample): for temperature 90 and condition `Clear` the
recommender sets outerwear to `"None"`, yet the image adapter IS invoked
for the outerwear slot — refuting the claim that the adapter is skipped
whenever the outerwear string is `"None"`. -/
theorem image_adapter_none_invoked :
    (get_outfit_recommendation (WeatherData.mk 90 "Clear" "clear sky" 30 5)
        (Preferences.mk "casual" "casual" "neutral")).outfit.outerwear
      = "None" ∧
    "outerwear" ∈ (get_outfit_images (some "key") (fun _ => .ok [])
        (get_outfit_recommendation (WeatherData.mk 90 "Clear" "clear sky" 30 5)
          (Preferences.mk "casual" "casual" "neutral")).outfit).adapterCalls := by
  decide

/-- C1 (amended): for every outfit produced by the recommender and any
key/service environment, the image adapter is invoked exactly once for
the top, bottom and footwear slots and once for the generic
complete-outfit query, and it is invoked for the outerwear slot if and
only if the outerwear string is neither empty nor `"None needed"` — in
particular it IS invoked when the outerwear string is `"None"` (the hot
tier). -/
theorem image_adapter_slots (weather : WeatherData) (prefs : Preferences)
    (accessKey : Option String) (service : String → UpstreamImageOutcome) :
    (get_outfit_images accessKey service
        (get_outfit_recommendation weather prefs).outfit).adapterCalls.count "top" = 1 ∧
    (get_outfit_images accessKey service
        (get_outfit_recommendation weather prefs).outfit).adapterCalls.count "bottom" = 1 ∧
    (get_outfit_images accessKey service
        (get_outfit_recommendation weather prefs).outfit).adapterCalls.count "footwear" = 1 ∧
    (get_outfit_images accessKey service
        (get_outfit_recommendation weather prefs).outfit).adapterCalls.count
          "outfit_complete" = 1 ∧
    ("outerwear" ∈ (get_outfit_images accessKey service
        (get_outfit_recommendation weather prefs).outfit).adapterCalls ↔
      (get_outfit_recommendation weather prefs).outfit.outerwear ≠ "" ∧
      (get_outfit_recommendation weather prefs).outfit.outerwear ≠ "None needed") := by
  have key : ∀ o : Outfit, (get_outfit_images accessKey service o).adapterCalls =
      if o.outerwear ≠ "" ∧ o.outerwear ≠ "None needed"
      then ["top", "bottom", "outerwear", "footwear", "outfit_complete"]
      else ["top", "bottom", "footwear", "outfit_complete"] := by
    intro o
    simp only [get_outfit_images, search_queries]
    split_ifs with h <;> simp [processQueries]
  rw [key]
  split_ifs with h <;>
    refine ⟨by decide, by decide, by decide, by decide, ?_⟩ <;> simp [h]

/-- C7: a POST body that is absent or lacks the `location` key is
answered with status 400 and body `{"error": "Location is required"}`,
and neither the weather adapter, nor the recommender, nor the image
adapter is invoked. -/
theorem missing_location_rejected (data : Option RequestBody)
    (weatherService : String → WeatherFetchOutcome) (unsplashKey : Option String)
    (imageService : String → UpstreamImageOutcome)
    (h : data = none ∨ ∃ d, data = some d ∧ d.location = none) :
    (outfit_recommendation data weatherService unsplashKey imageService).status
        = 400 ∧
    (outfit_recommendation data weatherService unsplashKey imageService).body
        = .error "Location is required" ∧
    (outfit_recommendation data weatherService unsplashKey imageService).weatherCalls
        = 0 ∧
    (outfit_recommendation data weatherService unsplashKey
        imageService).recommenderCalls = 0 ∧
    (outfit_recommendation data weatherService unsplashKey
        imageService).imageAdapterCalls = [] := by
  rcases h with rfl | ⟨d, rfl, hloc⟩
  · simp [outfit_recommendation]
  · simp [outfit_recommendation, hloc]

/-- Witness for `missing_location_rejected`: a body with only a mood
key and no location. -/
theorem missing_location_rejected_witness :
    ((some (RequestBody.mk none (some "casual") none none) : Option RequestBody)
        = none ∨
      ∃ d, (some (RequestBody.mk none (some "casual") none none) : Option RequestBody)
          = some d ∧ d.location = none) ∧
    ((outfit_recommendation (some (RequestBody.mk none (some "casual") none none))
        (fun _ => .networkFailure) none (fun _ => .exception)).status = 400 ∧
    (outfit_recommendation (some (RequestBody.mk none (some "casual") none none))
        (fun _ => .networkFailure) none (fun _ => .exception)).body
        = .error "Location is required" ∧
    (outfit_recommendation (some (RequestBody.mk none (some "casual") none none))
        (fun _ => .networkFailure) none (fun _ => .exception)).weatherCalls = 0 ∧
    (outfit_recommendation (some (RequestBody.mk none (some "casual") none none))
        (fun _ => .networkFailure) none (fun _ => .exception)).recommenderCalls = 0 ∧
    (outfit_recommendation (some (RequestBody.mk none (some "casual") none none))
        (fun _ => .networkFailure) none (fun _ => .exception)).imageAdapterCalls
        = []) :=
  ⟨Or.inr ⟨RequestBody.mk none (some "casual") none none, rfl, rfl⟩,
   missing_location_rejected (some (RequestBody.mk none (some "casual") none none))
     (fun _ => .networkFailure) none (fun _ => .exception)
     (Or.inr ⟨RequestBody.mk none (some "casual") none none, rfl, rfl⟩)⟩

/-- With no access key, the image-fetch loop stores no image and makes
no outbound HTTP call, whatever the query list. -/
theorem processQueries_no_key (svc : String → UpstreamImageOutcome)
    (l : List (String × Option String)) :
    (processQueries none svc l).images = [] ∧
    (processQueries none svc l).serviceCalls = [] := by
  induction l with
  | nil => exact ⟨rfl, rfl⟩
  | cons kq rest ih =>
    obtain ⟨k, q⟩ := kq
    cases q <;> simp [processQueries, search_unsplash_image, ih.1, ih.2]

/-- C8: when the photo-search key is unset, every image lookup returns
an absent result without contacting the photo service; a request whose
weather lookup succeeds is still answered 200, its `outfit_images`
field is the empty mapping, and no photo-service call is made.
Moreover, whatever the key and the photo-service behaviour, the status
is 200: an absent image result is never escalated to a request-level
error. -/
theorem no_image_key_degrades_gracefully (d : RequestBody) (loc : String)
    (weatherService : String → WeatherFetchOutcome)
    (imageService : String → UpstreamImageOutcome) (wd : WeatherData)
    (hloc : d.location = some loc) (hws : weatherService loc = .response 200 wd) :
    (∀ (svc : String → UpstreamImageOutcome) (q : String),
        search_unsplash_image none svc q = (none, [])) ∧
    (outfit_recommendation (some d) weatherService none imageService).status
        = 200 ∧
    (outfit_recommendation (some d) weatherService none imageService).body
        = .success loc
            ⟨pythonRound wd.temp, wd.condition, wd.description, wd.humidity,
             pythonRound wd.wind_speed⟩
            (get_outfit_recommendation wd
              ⟨d.mood.getD "casual", d.style_preference.getD "casual",
               d.color_preference.getD "neutral"⟩).outfit
            []
            (get_outfit_recommendation wd
              ⟨d.mood.getD "casual", d.style_preference.getD "casual",
               d.color_preference.getD "neutral"⟩).color_palette
            (get_outfit_recommendation wd
              ⟨d.mood.getD "casual", d.style_preference.getD "casual",
               d.color_preference.getD "neutral"⟩).style_tips ∧
    (outfit_recommendation (some d) weatherService none
        imageService).imageServiceCalls = [] ∧
    (∀ (key : Option String) (svc : String → UpstreamImageOutcome),
        (outfit_recommendation (some d) weatherService key svc).status = 200) := by
  refine ⟨fun svc q => rfl, ?_, ?_, ?_, ?_⟩ <;>
    simp [outfit_recommendation, hloc, hws, get_outfit_images,
      (processQueries_no_key _ _).1, (processQueries_no_key _ _).2]

/-- Witness for `no_image_key_degrades_gracefully`: body with location
`Chicago`, weather service answering 200 with a mild clear snapshot,
photo-search key unset. -/
theorem no_image_key_degrades_gracefully_witness :
    ((RequestBody.mk (some "Chicago") none none none).location
        = some "Chicago") ∧
    ((fun _ : String => WeatherFetchOutcome.response 200
        (WeatherData.mk 70 "Clear" "clear sky" 50 5)) "Chicago"
        = .response 200 (WeatherData.mk 70 "Clear" "clear sky" 50 5)) ∧
    ((∀ (svc : String → UpstreamImageOutcome) (q : String),
        search_unsplash_image none svc q = (none, [])) ∧
    (outfit_recommendation (some (RequestBody.mk (some "Chicago") none none none))
        (fun _ => .response 200 (WeatherData.mk 70 "Clear" "clear sky" 50 5))
        none (fun _ => .exception)).status = 200 ∧
    (outfit_recommendation (some (RequestBody.mk (some "Chicago") none none none))
        (fun _ => .response 200 (WeatherData.mk 70 "Clear" "clear sky" 50 5))
        none (fun _ => .exception)).body
        = .success "Chicago"
            ⟨pythonRound 70, "Clear", "clear sky", 50, pythonRound 5⟩
            (get_outfit_recommendation (WeatherData.mk 70 "Clear" "clear sky" 50 5)
              (Preferences.mk "casual" "casual" "neutral")).outfit
            []
            (get_outfit_recommendation (WeatherData.mk 70 "Clear" "clear sky" 50 5)
              (Preferences.mk "casual" "casual" "neutral")).color_palette
            (get_outfit_recommendation (WeatherData.mk 70 "Clear" "clear sky" 50 5)
              (Preferences.mk "casual" "casual" "neutral")).style_tips ∧
    (outfit_recommendation (some (RequestBody.mk (some "Chicago") none none none))
        (fun _ => .response 200 (WeatherData.mk 70 "Clear" "clear sky" 50 5))
        none (fun _ => .exception)).imageServiceCalls = [] ∧
    (∀ (key : Option String) (svc : String → UpstreamImageOutcome),
        (outfit_recommendation
          (some (RequestBody.mk (some "Chicago") none none none))
          (fun _ => .response 200 (WeatherData.mk 70 "Clear" "clear sky" 50 5))
          key svc).status = 200)) :=
  ⟨rfl, rfl,
   no_image_key_degrades_gracefully
     (RequestBody.mk (some "Chicago") none none none) "Chicago"
     (fun _ => .response 200 (WeatherData.mk 70 "Clear" "clear sky" 50 5))
     (fun _ => .exception) (WeatherData.mk 70 "Clear" "clear sky" 50 5) rfl rfl⟩

/-- Rounding a rational strictly between 49.5 and 50 yields 50. -/
theorem pythonRound_between (t : ℚ) (h1 : (99 : ℚ)/2 < t) (h2 : t < 50) :
    pythonRound t = 50 := by
  have hf : ⌊t⌋ = 49 := by
    rw [Int.floor_eq_iff]
    constructor <;> push_cast <;> linarith
  have hlt : ¬(t - ((49 : ℤ) : ℚ) < 1/2) := by push_cast; linarith
  have hgt : (1 : ℚ)/2 < t - ((49 : ℤ) : ℚ) := by push_cast; linarith
  simp only [pythonRound, hf, if_neg hlt, if_pos hgt]
  norm_num

/-- C10: the handler reports `round(temp)` in the weather summary but
hands the unrounded temperature to the recommender: for any temperature
strictly between 49.5 and 50 the displayed temperature is the boundary
value 50 while the outfit in the same response is computed from the
unrounded temperature, whose tier is cold — and the displayed value 50
belongs to the cool tier. -/
theorem displayed_temp_tier_mismatch (d : RequestBody) (loc : String)
    (weatherService : String → WeatherFetchOutcome) (unsplashKey : Option String)
    (imageService : String → UpstreamImageOutcome) (wd : WeatherData)
    (hloc : d.location = some loc) (hws : weatherService loc = .response 200 wd)
    (ht1 : (99 : ℚ)/2 < wd.temp) (ht2 : wd.temp < 50) :
    (outfit_recommendation (some d) weatherService unsplashKey imageService).body
        = .success loc
            ⟨50, wd.condition, wd.description, wd.humidity,
             pythonRound wd.wind_speed⟩
            (get_outfit_recommendation wd
              ⟨d.mood.getD "casual", d.style_preference.getD "casual",
               d.color_preference.getD "neutral"⟩).outfit
            (get_outfit_images unsplashKey imageService
              (get_outfit_recommendation wd
                ⟨d.mood.getD "casual", d.style_preference.getD "casual",
                 d.color_preference.getD "neutral"⟩).outfit).images
            (get_outfit_recommendation wd
              ⟨d.mood.getD "casual", d.style_preference.getD "casual",
               d.color_preference.getD "neutral"⟩).color_palette
            (get_outfit_recommendation wd
              ⟨d.mood.getD "casual", d.style_preference.getD "casual",
               d.color_preference.getD "neutral"⟩).style_tips ∧
    tierOf wd.temp = .cold ∧
    tierOf (50 : ℚ) = .cool := by
  refine ⟨?_, by simp [tierOf, ht2], by norm_num [tierOf]⟩
  simp [outfit_recommendation, hloc, hws, pythonRound_between wd.temp ht1 ht2]

/-- Witness for `displayed_temp_tier_mismatch` at temperature 49.6
(`248/5`). -/
theorem displayed_temp_tier_mismatch_witness :
    ((RequestBody.mk (some "Chicago") none none none).location
        = some "Chicago") ∧
    ((fun _ : String => WeatherFetchOutcome.response 200
        (WeatherData.mk (248/5) "Clear" "chilly" 50 5)) "Chicago"
        = .response 200 (WeatherData.mk (248/5) "Clear" "chilly" 50 5)) ∧
    ((99 : ℚ)/2 < (WeatherData.mk (248/5) "Clear" "chilly" 50 5).temp) ∧
    ((WeatherData.mk (248/5) "Clear" "chilly" 50 5).temp < 50) ∧
    ((outfit_recommendation (some (RequestBody.mk (some "Chicago") none none none))
        (fun _ => .response 200 (WeatherData.mk (248/5) "Clear" "chilly" 50 5))
        none (fun _ => .exception)).body
        = .success "Chicago"
            ⟨50, "Clear", "chilly", 50, pythonRound 5⟩
            (get_outfit_recommendation (WeatherData.mk (248/5) "Clear" "chilly" 50 5)
              (Preferences.mk "casual" "casual" "neutral")).outfit
            (get_outfit_images none (fun _ => .exception)
              (get_outfit_recommendation
                (WeatherData.mk (248/5) "Clear" "chilly" 50 5)
                (Preferences.mk "casual" "casual" "neutral")).outfit).images
            (get_outfit_recommendation (WeatherData.mk (248/5) "Clear" "chilly" 50 5)
              (Preferences.mk "casual" "casual" "neutral")).color_palette
            (get_outfit_recommendation (WeatherData.mk (248/5) "Clear" "chilly" 50 5)
              (Preferences.mk "casual" "casual" "neutral")).style_tips ∧
    tierOf (WeatherData.mk (248/5) "Clear" "chilly" 50 5).temp = .cold ∧
    tierOf (50 : ℚ) = .cool) :=
  ⟨rfl, rfl, by norm_num, by norm_num,
   displayed_temp_tier_mismatch
     (RequestBody.mk (some "Chicago") none none none) "Chicago"
     (fun _ => .response 200 (WeatherData.mk (248/5) "Clear" "chilly" 50 5))
     none (fun _ => .exception)
     (WeatherData.mk (248/5) "Clear" "chilly" 50 5) rfl rfl
     (by norm_num) (by norm_num)⟩

end OutfitApp
